import Mathlib

/-!
Verification development for the icomment repository.

Shallow embedding of the two core components the specification covers:

* the KV-backed rate limiter (`RateLimiter` class, `checkLimit`,
  `checkMultiple`, `resetLimit` and the constructor's default settings);
* the soft-delete operations of the comment tree store together with the
  relational schema's cascading hard delete
  (migrations/0001_init_schema.sql).

The rate limiter is translated from the source file defining the
`RateLimiter` class.  Cloudflare KV is modelled as a mapping from keys to
entries together with failure flags: a flag set means the corresponding KV
operation throws, which is what the source's try/catch blocks observe.  The
key string `rate_limit:${userId}:${action}:${windowStart}` is represented
by the record of its three varying components (the string construction is
injective in them, as the action literal and the decimal window stamp
contain no separator).  `console.error` in a catch block is the observable
sign that an exception was caught; it is mirrored by the `errLogged` field
of an outcome.
-/

namespace Icomment

/-- The two action kinds of the limiter, the source's `'read' | 'write'`. -/
inductive ActionType where
  | read : ActionType
  | write : ActionType
deriving DecidableEq, Repr

/-- Result record returned by `checkLimit` (interface `RateLimitResult`).
`remaining` is an integer because the source computes it as
`Math.max(0, maxRequests - count)`. -/
structure RateLimitResult where
  allowed : Bool
  remaining : Int
  resetTime : Nat
deriving DecidableEq, Repr

/-- Per-bucket configuration (interface `RateLimitConfig`). -/
structure RateLimitConfig where
  maxRequests : Nat
  windowMs : Nat
deriving DecidableEq, Repr

/-- Configuration matrix (interface `RateLimitSettings`). -/
structure RateLimitSettings where
  authenticatedRead : RateLimitConfig
  authenticatedWrite : RateLimitConfig
  anonymousRead : RateLimitConfig
  anonymousWrite : RateLimitConfig
deriving DecidableEq, Repr

/-- The class constant `windowMs = 60 * 1000`. -/
def windowMs : Nat := 60 * 1000

/-- The settings installed by the `RateLimiter` constructor. -/
def defaultSettings : RateLimitSettings :=
  { authenticatedRead := { maxRequests := 100, windowMs := windowMs }
    authenticatedWrite := { maxRequests := 10, windowMs := windowMs }
    anonymousRead := { maxRequests := 30, windowMs := windowMs }
    anonymousWrite := { maxRequests := 0, windowMs := windowMs } }

/-- Selection `isAuthenticated ? settings.authenticated[action]
: settings.anonymous[action]`. -/
def configFor (settings : RateLimitSettings) (isAuthenticated : Bool)
    (action : ActionType) : RateLimitConfig :=
  if isAuthenticated then
    match action with
    | ActionType.read => settings.authenticatedRead
    | ActionType.write => settings.authenticatedWrite
  else
    match action with
    | ActionType.read => settings.anonymousRead
    | ActionType.write => settings.anonymousWrite

/-- A rate-limit counter key: the three varying components of the KV key
string `rate_limit:${userId}:${action}:${windowStart}`. -/
structure RLKey where
  userId : String
  action : ActionType
  windowStart : Nat
deriving DecidableEq, Repr

/-- A stored counter entry: the numeric value of the stored string and the
`expirationTtl` (seconds) it was written with. -/
structure KVEntry where
  value : Nat
  ttlSeconds : Nat
deriving DecidableEq, Repr

/-- Model of the KV namespace: the entries, plus one flag per operation
kind; a set flag means that operation throws when invoked. -/
structure KVStore where
  entries : RLKey → Option KVEntry
  failGet : Bool
  failPut : Bool
  failDelete : Bool

/-- `kv.put(key, String(v), { expirationTtl := ttl })`. -/
def kvPut (st : KVStore) (k : RLKey) (v : Nat) (ttl : Nat) : KVStore :=
  { st with entries := fun k' => if k' = k then some ⟨v, ttl⟩ else st.entries k' }

/-- `kv.delete(key)`. -/
def kvDelete (st : KVStore) (k : RLKey) : KVStore :=
  { st with entries := fun k' => if k' = k then none else st.entries k' }

/-- The count `checkLimit` derives from a successful get:
`countStr ? parseInt(countStr, 10) : 0` (the store only ever holds decimal
numerals written by `checkLimit` itself). -/
def countOf (st : KVStore) (k : RLKey) : Nat :=
  match st.entries k with
  | some e => e.value
  | none => 0

/-- The TTL passed to `kv.put`:
`Math.ceil(windowMs / 1000) + 10` (a 10 second buffer). -/
def expirationTtl : Nat := (windowMs + 999) / 1000 + 10

/-- Outcome of one `checkLimit` call: the returned result, the KV state
it leaves behind, and whether a KV exception was caught (and logged via
`console.error`). -/
structure CheckOutcome where
  result : RateLimitResult
  store : KVStore
  errLogged : Bool

/-- `RateLimiter.checkLimit(userId, action, isAuthenticated)` at clock
reading `now` (`Date.now()`), translated branch by branch:

1. anonymous-write guard: when not authenticated, the action is a write
   and the configured `maxRequests` is `0`, return denial immediately
   (note `resetTime = now + windowMs`, not window aligned);
2. otherwise read the counter of the current window; a throwing get is
   caught and answered fail-open with `remaining = maxRequests` and
   `resetTime = now + windowMs`;
3. `allowed = count < maxRequests`; when allowed, put `count + 1` with
   `expirationTtl`; a throwing put is caught by the same catch block;
4. on the normal path, `remaining = max(0, maxRequests - count)` and
   `resetTime = windowStart + windowMs` with
   `windowStart = floor(now / windowMs) * windowMs`. -/
def checkLimit (st : KVStore) (now : Nat) (userId : String)
    (action : ActionType) (isAuthenticated : Bool)
    (settings : RateLimitSettings) : CheckOutcome :=
  let config := configFor settings isAuthenticated action
  if isAuthenticated = false ∧ action = ActionType.write ∧ config.maxRequests = 0 then
    ⟨⟨false, 0, now + windowMs⟩, st, false⟩
  else
    let windowStart := now / windowMs * windowMs
    let key : RLKey := ⟨userId, action, windowStart⟩
    if st.failGet = true then
      ⟨⟨true, (config.maxRequests : Int), now + windowMs⟩, st, true⟩
    else
      let count := countOf st key
      let remaining : Int := max 0 ((config.maxRequests : Int) - (count : Int))
      if count < config.maxRequests then
        if st.failPut = true then
          ⟨⟨true, (config.maxRequests : Int), now + windowMs⟩, st, true⟩
        else
          ⟨⟨true, remaining, windowStart + windowMs⟩,
            kvPut st key (count + 1) expirationTtl, false⟩
      else
        ⟨⟨false, remaining, windowStart + windowMs⟩, st, false⟩

/-- The loop body accumulator of `RateLimiter.checkMultiple`: walk the
action list, run `checkLimit` for each action, store the result under the
action in the record (`results[action] = ...`, later entries overwrite
earlier ones). -/
def checkMultipleGo (now : Nat) (userId : String) (isAuthenticated : Bool)
    (settings : RateLimitSettings) :
    List ActionType → (ActionType → Option RateLimitResult) → KVStore →
    (ActionType → Option RateLimitResult) × KVStore
  | [], results, st => (results, st)
  | a :: rest, results, st =>
      let out := checkLimit st now userId a isAuthenticated settings
      checkMultipleGo now userId isAuthenticated settings rest
        (fun x => if x = a then some out.result else results x) out.store

/-- `RateLimiter.checkMultiple(userId, actions, isAuthenticated)`:
independent sequential `checkLimit` calls, one per listed action. -/
def checkMultiple (st : KVStore) (now : Nat) (userId : String)
    (actions : List ActionType) (isAuthenticated : Bool)
    (settings : RateLimitSettings) :
    (ActionType → Option RateLimitResult) × KVStore :=
  checkMultipleGo now userId isAuthenticated settings actions (fun _ => none) st

/-- `RateLimiter.resetLimit(userId, action)` at clock reading `now`:
delete the current window's counter key; a throwing delete is caught and
answered `false`. -/
def resetLimit (st : KVStore) (now : Nat) (userId : String)
    (action : ActionType) : Bool × KVStore :=
  if st.failDelete = true then
    (false, st)
  else
    let windowStart := now / windowMs * windowMs
    (true, kvDelete st ⟨userId, action, windowStart⟩)

/-- Sequential execution of `checkLimit` at the listed clock readings,
collecting each call's `allowed` flag and threading the KV state. -/
def runSeq (settings : RateLimitSettings) (userId : String)
    (action : ActionType) (isAuthenticated : Bool) :
    KVStore → List Nat → List Bool × KVStore
  | st, [] => ([], st)
  | st, t :: ts =>
      let out := checkLimit st t userId action isAuthenticated settings
      let tail := runSeq settings userId action isAuthenticated out.store ts
      (out.result.allowed :: tail.1, tail.2)

/-- Sequential composition of the KV states of `checkLimit` calls, one per
listed action at a common clock reading (the state a batch leaves behind). -/
def stateAfter (now : Nat) (userId : String) (isAuthenticated : Bool)
    (settings : RateLimitSettings) : KVStore → List ActionType → KVStore
  | st, [] => st
  | st, a :: rest =>
      stateAfter now userId isAuthenticated settings
        (checkLimit st now userId a isAuthenticated settings).store rest

/-- A KV store with no entries and no failing operation. -/
def emptyKV : KVStore :=
  { entries := fun _ => none, failGet := false, failPut := false, failDelete := false }

/-- A KV store with no entries on which every operation throws. -/
def failingKV : KVStore :=
  { entries := fun _ => none, failGet := true, failPut := true, failDelete := true }

/-! ### Comment tree store: soft delete and the schema's cascade

The repository's sources ship the relational schema
(migrations/0001_init_schema.sql) and the shared record types, but not the
store operations themselves; those are modelled from the specification
below, with the schema as the authority for row shapes and the cascade. -/

/-- A `users` row (the fields the soft-delete operations consult). -/
structure UserRow where
  id : String
  username : String
  is_admin : Bool
deriving DecidableEq, Repr

/-- A `discussions` row. -/
structure DiscussionRow where
  id : String
  title : String
  created_by : String
  created_at : Nat
  updated_at : Nat
  is_archived : Bool
  deleted_at : Option Nat
deriving DecidableEq, Repr

/-- A `comments` row. -/
structure CommentRow where
  id : String
  discussion_id : String
  parent_comment_id : Option String
  author_id : String
  content : String
  created_at : Nat
  updated_at : Nat
  deleted_at : Option Nat
deriving DecidableEq, Repr

/-- The relational state the soft-delete operations act on. -/
structure DB where
  users : List UserRow
  discussions : List DiscussionRow
  comments : List CommentRow
deriving DecidableEq, Repr

/-- Error kinds of the comment store (section 7 of the specification). -/
inductive StoreError where
  | validationError : StoreError
  | notFound : StoreError
  | forbidden : StoreError
  | invalidReference : StoreError
  | storageUnavailable : StoreError
deriving DecidableEq, Repr

/-- Whether the actor id names an admin user. -/
def isAdminUser (db : DB) (actorId : String) : Bool :=
  match db.users.find? (fun u => u.id == actorId) with
  | some u => u.is_admin
  | none => false

/-- Modelled from the spec: `SoftDeleteComment(commentId, actorId)` is not
under src/ (only the schema and record types are).  Per the specification
it carries the same permission rule as edit (author or admin, otherwise
`Forbidden`), fails `NotFound` for a missing comment, and is idempotent:
deleting an already-deleted comment is a no-op success.  Deleting a live
comment sets its `deleted_at` tombstone. -/
def softDeleteComment (db : DB) (commentId actorId : String) (now : Nat) :
    Except StoreError DB :=
  match db.comments.find? (fun c => c.id == commentId) with
  | none => Except.error StoreError.notFound
  | some c =>
    if actorId == c.author_id || isAdminUser db actorId then
      match c.deleted_at with
      | some _ => Except.ok db
      | none =>
          Except.ok { db with
            comments := db.comments.map (fun x =>
              if x.id == commentId then { x with deleted_at := some now } else x) }
    else
      Except.error StoreError.forbidden

/-- Sets the tombstone on the discussion row with the given id, leaving
every other row and every other field unchanged. -/
def markDiscussionDeleted (discussionId : String) (now : Nat)
    (d : DiscussionRow) : DiscussionRow :=
  if d.id == discussionId then { d with deleted_at := some now } else d

/-- Modelled from the spec: `SoftDeleteDiscussion(discussionId, actorId)`
is not under src/ (only the schema and record types are).  Per the
specification it is admin-only, fails `NotFound` for a missing discussion,
sets the discussion's `deleted_at`, and does not physically touch child
comments. -/
def softDeleteDiscussion (db : DB) (discussionId actorId : String)
    (now : Nat) : Except StoreError DB :=
  if isAdminUser db actorId then
    match db.discussions.find? (fun d => d.id == discussionId) with
    | none => Except.error StoreError.notFound
    | some _ =>
        Except.ok { db with
          discussions := db.discussions.map (markDiscussionDeleted discussionId now) }
  else
    Except.error StoreError.forbidden

/-- Relational hard delete of a discussion row: `DELETE FROM discussions`
for one id, together with the schema's
`FOREIGN KEY (discussion_id) REFERENCES discussions(id) ON DELETE CASCADE`
on `comments` (migrations/0001_init_schema.sql), which hard-deletes
exactly the comment rows of that discussion. -/
def hardDeleteDiscussion (db : DB) (discussionId : String) : DB :=
  { db with
    discussions := db.discussions.filter (fun d => !(d.id == discussionId))
    comments := db.comments.filter (fun c => !(c.discussion_id == discussionId)) }

/-! ### Helper lemmas -/

theorem countOf_kvPut_same (st : KVStore) (k : RLKey) (v ttl : Nat) :
    countOf (kvPut st k v ttl) k = v := by
  simp [countOf, kvPut]

theorem kvPut_entries_ne (st : KVStore) (k : RLKey) (v ttl : Nat) (k' : RLKey)
    (h : k' ≠ k) : (kvPut st k v ttl).entries k' = st.entries k' := by
  simp [kvPut, h]

theorem kvPut_failGet (st : KVStore) (k : RLKey) (v ttl : Nat) :
    (kvPut st k v ttl).failGet = st.failGet := rfl

theorem kvPut_failPut (st : KVStore) (k : RLKey) (v ttl : Nat) :
    (kvPut st k v ttl).failPut = st.failPut := rfl

/-- On a store whose get and put succeed, with a positive configured
maximum, `checkLimit` takes the normal path: it is an increment-and-allow
when the current window's count is below the maximum and a pure denial
otherwise. -/
theorem checkLimit_step (settings : RateLimitSettings) (u : String)
    (a : ActionType) (auth : Bool) (st : KVStore) (t : Nat) (N : Nat)
    (hcfg : (configFor settings auth a).maxRequests = N) (hN : 0 < N)
    (hg : st.failGet = false) (hp : st.failPut = false) :
    checkLimit st t u a auth settings =
      if countOf st ⟨u, a, t / windowMs * windowMs⟩ < N then
        ⟨⟨true, max 0 ((N : Int) - (countOf st ⟨u, a, t / windowMs * windowMs⟩ : Int)),
            t / windowMs * windowMs + windowMs⟩,
          kvPut st ⟨u, a, t / windowMs * windowMs⟩
            (countOf st ⟨u, a, t / windowMs * windowMs⟩ + 1) expirationTtl, false⟩
      else
        ⟨⟨false, max 0 ((N : Int) - (countOf st ⟨u, a, t / windowMs * windowMs⟩ : Int)),
            t / windowMs * windowMs + windowMs⟩, st, false⟩ := by
  have hguard : ¬(auth = false ∧ a = ActionType.write ∧
      (configFor settings auth a).maxRequests = 0) := by
    rintro ⟨-, -, h0⟩
    omega
  simp [checkLimit, hguard, hg, hp, hcfg]
  intro h1 h2 h0
  omega

/-- Invariant of a sequential run whose clock readings all fall in window
`W` and whose total length still fits under the configured maximum: every
call is allowed, the run adds its length to the window's counter, failure
flags are untouched, and no other key changes. -/
theorem runSeq_within_window (settings : RateLimitSettings) (u : String)
    (a : ActionType) (auth : Bool) (N W : Nat)
    (hcfg : (configFor settings auth a).maxRequests = N) (hN : 0 < N) :
    ∀ (ts : List Nat) (st : KVStore),
      st.failGet = false → st.failPut = false →
      (∀ t ∈ ts, t / windowMs = W) →
      countOf st ⟨u, a, W * windowMs⟩ + ts.length ≤ N →
      (runSeq settings u a auth st ts).1 = List.replicate ts.length true ∧
      (runSeq settings u a auth st ts).2.failGet = false ∧
      (runSeq settings u a auth st ts).2.failPut = false ∧
      countOf (runSeq settings u a auth st ts).2 ⟨u, a, W * windowMs⟩ =
        countOf st ⟨u, a, W * windowMs⟩ + ts.length ∧
      (∀ k, k ≠ ⟨u, a, W * windowMs⟩ →
        (runSeq settings u a auth st ts).2.entries k = st.entries k) := by
  intro ts
  induction ts with
  | nil =>
      intro st hg hp _ _
      simp [runSeq, hg, hp]
  | cons t ts ih =>
      intro st hg hp hts hcount
      have ht : t / windowMs = W := hts t (List.mem_cons_self t ts)
      have hlt : countOf st ⟨u, a, W * windowMs⟩ < N := by
        simp [List.length_cons] at hcount
        omega
      have hstep := checkLimit_step settings u a auth st t N hcfg hN hg hp
      rw [ht] at hstep
      rw [if_pos hlt] at hstep
      set key : RLKey := ⟨u, a, W * windowMs⟩ with hkey
      set st' : KVStore := kvPut st key (countOf st key + 1) expirationTtl with hst'
      have hg' : st'.failGet = false := by rw [hst', kvPut_failGet]; exact hg
      have hp' : st'.failPut = false := by rw [hst', kvPut_failPut]; exact hp
      have hcount' : countOf st' key + ts.length ≤ N := by
        rw [hst', countOf_kvPut_same]
        simp [List.length_cons] at hcount
        omega
      have hts' : ∀ x ∈ ts, x / windowMs = W := fun x hx => hts x (List.mem_cons_of_mem t hx)
      have ihx := ih st' hg' hp' hts' hcount'
      constructor
      · show (runSeq settings u a auth st (t :: ts)).1 = _
        simp only [runSeq, hstep]
        simp [List.length_cons, List.replicate_succ, ihx.1]
      refine ⟨?_, ?_, ?_, ?_⟩
      · show (runSeq settings u a auth st (t :: ts)).2.failGet = false
        simp only [runSeq, hstep]
        exact ihx.2.1
      · show (runSeq settings u a auth st (t :: ts)).2.failPut = false
        simp only [runSeq, hstep]
        exact ihx.2.2.1
      · show countOf (runSeq settings u a auth st (t :: ts)).2 key =
          countOf st key + (t :: ts).length
        simp only [runSeq, hstep]
        have := ihx.2.2.2.1
        rw [this, hst', countOf_kvPut_same]
        simp [List.length_cons]
        omega
      · intro k hk
        show (runSeq settings u a auth st (t :: ts)).2.entries k = st.entries k
        simp only [runSeq, hstep]
        rw [ihx.2.2.2.2 k hk, hst', kvPut_entries_ne _ _ _ _ _ hk]

/-- The KV state a `checkMultiple` loop leaves behind is the sequential
composition of the per-action `checkLimit` states, independent of the
accumulated result record. -/
theorem checkMultipleGo_store (now : Nat) (u : String) (auth : Bool)
    (settings : RateLimitSettings) :
    ∀ (acts : List ActionType) (results : ActionType → Option RateLimitResult)
      (st : KVStore),
      (checkMultipleGo now u auth settings acts results st).2 =
        stateAfter now u auth settings st acts := by
  intro acts
  induction acts with
  | nil => intro results st; rfl
  | cons a rest ih =>
      intro results st
      simp only [checkMultipleGo, stateAfter]
      exact ih _ _

/-- An action that does not occur in the remaining list keeps its
accumulated entry through the `checkMultiple` loop. -/
theorem checkMultipleGo_lookup_notmem (now : Nat) (u : String) (auth : Bool)
    (settings : RateLimitSettings) :
    ∀ (acts : List ActionType) (results : ActionType → Option RateLimitResult)
      (st : KVStore) (x : ActionType), x ∉ acts →
      (checkMultipleGo now u auth settings acts results st).1 x = results x := by
  intro acts
  induction acts with
  | nil => intro results st x _; rfl
  | cons a rest ih =>
      intro results st x hx
      have hxa : x ≠ a := fun h => hx (h ▸ List.mem_cons_self a rest)
      have hxr : x ∉ rest := fun h => hx (List.mem_cons_of_mem a h)
      simp only [checkMultipleGo]
      rw [ih _ _ x hxr]
      simp [hxa]

/-- The result record entry of an action equals the `checkLimit` result of
its last occurrence, computed against the state left by the preceding
calls of the batch. -/
theorem checkMultipleGo_lookup_last (now : Nat) (u : String) (auth : Bool)
    (settings : RateLimitSettings) :
    ∀ (p : List ActionType) (a : ActionType) (s : List ActionType),
      a ∉ s →
      ∀ (results : ActionType → Option RateLimitResult) (st : KVStore),
      (checkMultipleGo now u auth settings (p ++ a :: s) results st).1 a =
        some (checkLimit (stateAfter now u auth settings st p) now u a auth
          settings).result := by
  intro p
  induction p with
  | nil =>
      intro a s hs results st
      simp only [List.nil_append, checkMultipleGo, stateAfter]
      rw [checkMultipleGo_lookup_notmem now u auth settings s _ _ a hs]
      simp
  | cons b p ih =>
      intro a s hs results st
      simp only [List.cons_append, checkMultipleGo, stateAfter]
      exact ih a s hs _ _

/-! ### Claim theorems -/

/-- C2: every `checkLimit` call in which a counter-store operation threw
(observable as the caught-and-logged error) returns `allowed = true`, for
every identity, action and authentication class. -/
theorem checkLimit_fail_open (st : KVStore) (now : Nat) (userId : String)
    (action : ActionType) (isAuthenticated : Bool)
    (settings : RateLimitSettings)
    (h : (checkLimit st now userId action isAuthenticated settings).errLogged = true) :
    (checkLimit st now userId action isAuthenticated settings).result.allowed = true := by
  simp only [checkLimit] at h ⊢
  split_ifs at h ⊢ <;> simp_all

theorem checkLimit_fail_open_witness :
    (checkLimit failingKV 0 "u" ActionType.read true defaultSettings).errLogged = true ∧
    (checkLimit failingKV 0 "u" ActionType.read true defaultSettings).result.allowed = true :=
  ⟨rfl, checkLimit_fail_open failingKV 0 "u" ActionType.read true defaultSettings rfl⟩

/-- C3: under a configuration whose anonymous-write maximum is `0`, an
unauthenticated write check is denied against every store state, i.e.
regardless of any prior call history. -/
theorem checkLimit_anonymous_write_denied (st : KVStore) (now : Nat)
    (userId : String) (settings : RateLimitSettings)
    (h : settings.anonymousWrite.maxRequests = 0) :
    (checkLimit st now userId ActionType.write false settings).result.allowed = false := by
  simp [checkLimit, configFor, h]

theorem checkLimit_anonymous_write_denied_witness :
    (checkLimit failingKV 123456 "anyone" ActionType.write false
      defaultSettings).result.allowed = false :=
  checkLimit_anonymous_write_denied failingKV 123456 "anyone" defaultSettings rfl

/-- C10: under a configuration whose anonymous-write maximum is `0`, an
unauthenticated write check returns the denial record
`{allowed := false, remaining := 0}` and leaves the store untouched with
no error caught — the guard runs before any counter-store operation, so
the fail-open path can never admit an anonymous write, even against a
store on which every operation would throw. -/
theorem checkLimit_anonymous_write_no_store_op (st : KVStore) (now : Nat)
    (userId : String) (settings : RateLimitSettings)
    (h : settings.anonymousWrite.maxRequests = 0) :
    checkLimit st now userId ActionType.write false settings =
      ⟨⟨false, 0, now + windowMs⟩, st, false⟩ := by
  simp [checkLimit, configFor, h]

theorem checkLimit_anonymous_write_no_store_op_witness :
    checkLimit failingKV 77 "anon" ActionType.write false defaultSettings =
      ⟨⟨false, 0, 77 + windowMs⟩, failingKV, false⟩ :=
  checkLimit_anonymous_write_no_store_op failingKV 77 "anon" defaultSettings rfl

/-- C9: when the delete succeeds, `resetLimit` removes exactly the counter
key of the current window for that identity and action, reports success,
and leaves every other counter entry unchanged. -/
theorem resetLimit_current_window_only (st : KVStore) (now : Nat)
    (userId : String) (action : ActionType)
    (hd : st.failDelete = false) :
    (resetLimit st now userId action).1 = true ∧
    (resetLimit st now userId action).2.entries
      ⟨userId, action, now / windowMs * windowMs⟩ = none ∧
    ∀ k, k ≠ (⟨userId, action, now / windowMs * windowMs⟩ : RLKey) →
      (resetLimit st now userId action).2.entries k = st.entries k := by
  refine ⟨?_, ?_, ?_⟩
  · simp [resetLimit, hd]
  · simp [resetLimit, hd, kvDelete]
  · intro k hk
    simp [resetLimit, hd, kvDelete, hk]

theorem resetLimit_current_window_only_witness :
    (resetLimit (kvPut (kvPut emptyKV ⟨"u", ActionType.read, 0⟩ 3 70)
        ⟨"v", ActionType.read, 0⟩ 1 70) 30000 "u" ActionType.read).1 = true ∧
    (resetLimit (kvPut (kvPut emptyKV ⟨"u", ActionType.read, 0⟩ 3 70)
        ⟨"v", ActionType.read, 0⟩ 1 70) 30000 "u" ActionType.read).2.entries
      ⟨"u", ActionType.read, 30000 / windowMs * windowMs⟩ = none ∧
    ∀ k, k ≠ (⟨"u", ActionType.read, 30000 / windowMs * windowMs⟩ : RLKey) →
      (resetLimit (kvPut (kvPut emptyKV ⟨"u", ActionType.read, 0⟩ 3 70)
          ⟨"v", ActionType.read, 0⟩ 1 70) 30000 "u" ActionType.read).2.entries k =
        (kvPut (kvPut emptyKV ⟨"u", ActionType.read, 0⟩ 3 70)
          ⟨"v", ActionType.read, 0⟩ 1 70).entries k :=
  resetLimit_current_window_only _ 30000 "u" ActionType.read rfl

/-- C4 counterexample: the anonymous-write guard branch returns
`resetTime = now + 60000` rather than `windowStart + 60000`; at
`now = 1` the call returns `60001` while `windowStart + 60000 = 60000`. -/
theorem checkLimit_resetTime_counterexample :
    (checkLimit emptyKV 1 "u" ActionType.write false defaultSettings).result.resetTime ≠
      1 / windowMs * windowMs + windowMs := by
  decide

/-- C4 amended: for every `checkLimit` call that does not take the
anonymous-write short-circuit and in which no counter-store error is
caught, `remaining = max(0, maxRequests - count)` with `count` the counter
value of the current window (0 if absent), and
`resetTime = windowStart + 60000` with
`windowStart = floor(now / 60000) * 60000`. -/
theorem checkLimit_normal_result (st : KVStore) (now : Nat) (userId : String)
    (action : ActionType) (isAuthenticated : Bool)
    (settings : RateLimitSettings)
    (hguard : ¬(isAuthenticated = false ∧ action = ActionType.write ∧
      (configFor settings isAuthenticated action).maxRequests = 0))
    (herr : (checkLimit st now userId action isAuthenticated settings).errLogged = false) :
    (checkLimit st now userId action isAuthenticated settings).result.remaining =
      max 0 (((configFor settings isAuthenticated action).maxRequests : Int) -
        (countOf st ⟨userId, action, now / windowMs * windowMs⟩ : Int)) ∧
    (checkLimit st now userId action isAuthenticated settings).result.resetTime =
      now / windowMs * windowMs + windowMs := by
  simp only [checkLimit] at herr ⊢
  split_ifs at herr ⊢ <;> simp_all

theorem checkLimit_normal_result_witness :
    ¬(False = False ∧ ActionType.read = ActionType.write ∧
      (configFor defaultSettings false ActionType.read).maxRequests = 0) ∧
    ((checkLimit emptyKV 61234 "u" ActionType.read false defaultSettings).result.remaining =
      max 0 (((configFor defaultSettings false ActionType.read).maxRequests : Int) -
        (countOf emptyKV ⟨"u", ActionType.read, 61234 / windowMs * windowMs⟩ : Int)) ∧
    (checkLimit emptyKV 61234 "u" ActionType.read false defaultSettings).result.resetTime =
      61234 / windowMs * windowMs + windowMs) :=
  ⟨by decide,
    checkLimit_normal_result emptyKV 61234 "u" ActionType.read false defaultSettings
      (by decide) rfl⟩

/-- C5 counterexample: against a store whose get throws, `checkLimit`
returns `allowed = true` yet persists nothing — the current window's key
is still absent afterwards, so an allowed call does not always persist
`count + 1`. -/
theorem checkLimit_allowed_no_write_counterexample :
    (checkLimit failingKV 0 "u" ActionType.read true defaultSettings).result.allowed = true ∧
    (checkLimit failingKV 0 "u" ActionType.read true defaultSettings).store.entries
      ⟨"u", ActionType.read, 0⟩ = none := by
  constructor <;> rfl

/-- C5 amended: a call returning `allowed = false` leaves the counter
store unchanged (so writes happen only on allowed calls), and when no
counter-store error is caught an allowed call persists `count + 1` under
the current window's key with the 70-second `expirationTtl`, an expiry
longer than the 60-second window. -/
theorem checkLimit_store_effect (st : KVStore) (now : Nat) (userId : String)
    (action : ActionType) (isAuthenticated : Bool)
    (settings : RateLimitSettings)
    (herr : (checkLimit st now userId action isAuthenticated settings).errLogged = false) :
    ((checkLimit st now userId action isAuthenticated settings).result.allowed = false →
      (checkLimit st now userId action isAuthenticated settings).store = st) ∧
    ((checkLimit st now userId action isAuthenticated settings).result.allowed = true →
      (checkLimit st now userId action isAuthenticated settings).store =
        kvPut st ⟨userId, action, now / windowMs * windowMs⟩
          (countOf st ⟨userId, action, now / windowMs * windowMs⟩ + 1) expirationTtl ∧
      windowMs < expirationTtl * 1000) := by
  simp only [checkLimit] at herr ⊢
  split_ifs at herr ⊢ <;> simp_all
  decide

theorem checkLimit_store_effect_witness :
    (checkLimit emptyKV 0 "u" ActionType.read true defaultSettings).store =
      kvPut emptyKV ⟨"u", ActionType.read, 0 / windowMs * windowMs⟩
        (countOf emptyKV ⟨"u", ActionType.read, 0 / windowMs * windowMs⟩ + 1)
        expirationTtl ∧
    windowMs < expirationTtl * 1000 :=
  (checkLimit_store_effect emptyKV 0 "u" ActionType.read true defaultSettings rfl).2 rfl

/-- C1: with a configured maximum `N > 0`, a reliable counter store, and a
fresh identity, a sequential run of `N` calls inside one 60-second-aligned
window is fully allowed, the `(N+1)`-th call inside the same window is
denied, and the first call of the following window is allowed again. -/
theorem checkLimit_window_threshold (settings : RateLimitSettings)
    (u : String) (a : ActionType) (auth : Bool) (N W : Nat)
    (hcfg : (configFor settings auth a).maxRequests = N) (hN : 0 < N)
    (st0 : KVStore) (hg : st0.failGet = false) (hp : st0.failPut = false)
    (h0 : st0.entries ⟨u, a, W * windowMs⟩ = none)
    (h1 : st0.entries ⟨u, a, (W + 1) * windowMs⟩ = none)
    (ts : List Nat) (hlen : ts.length = N)
    (hts : ∀ t ∈ ts, t / windowMs = W)
    (t1 : Nat) (ht1 : t1 / windowMs = W)
    (t2 : Nat) (ht2 : t2 / windowMs = W + 1) :
    (runSeq settings u a auth st0 ts).1 = List.replicate N true ∧
    (checkLimit (runSeq settings u a auth st0 ts).2 t1 u a auth
      settings).result.allowed = false ∧
    (checkLimit (checkLimit (runSeq settings u a auth st0 ts).2 t1 u a auth
        settings).store t2 u a auth settings).result.allowed = true := by
  have hc0 : countOf st0 ⟨u, a, W * windowMs⟩ = 0 := by simp [countOf, h0]
  obtain ⟨hres, hgf, hpf, hcnt, hframe⟩ :=
    runSeq_within_window settings u a auth N W hcfg hN ts st0 hg hp hts
      (by rw [hc0, hlen]; omega)
  set stf := (runSeq settings u a auth st0 ts).2 with hstf
  have hcntN : countOf stf ⟨u, a, W * windowMs⟩ = N := by
    rw [hcnt, hc0, hlen]
    omega
  have hstep1 := checkLimit_step settings u a auth stf t1 N hcfg hN hgf hpf
  rw [ht1] at hstep1
  rw [if_neg (by omega)] at hstep1
  refine ⟨by rw [hres, hlen], by rw [hstep1], ?_⟩
  rw [hstep1]
  dsimp only
  have hstep2 := checkLimit_step settings u a auth stf t2 N hcfg hN hgf hpf
  rw [ht2] at hstep2
  have hkey2 : (⟨u, a, (W + 1) * windowMs⟩ : RLKey) ≠ ⟨u, a, W * windowMs⟩ := by
    intro hcontra
    have := congrArg RLKey.windowStart hcontra
    simp only [windowMs] at this
    omega
  have hc2 : countOf stf ⟨u, a, (W + 1) * windowMs⟩ = 0 := by
    unfold countOf
    rw [hframe _ hkey2, h1]
  rw [if_pos (by omega)] at hstep2
  rw [hstep2]

theorem checkLimit_window_threshold_witness :
    (runSeq defaultSettings "alice" ActionType.write true emptyKV
      [0, 1, 2, 3, 4, 5, 6, 7, 8, 9]).1 = List.replicate 10 true ∧
    (checkLimit (runSeq defaultSettings "alice" ActionType.write true emptyKV
        [0, 1, 2, 3, 4, 5, 6, 7, 8, 9]).2 59999 "alice" ActionType.write true
      defaultSettings).result.allowed = false ∧
    (checkLimit (checkLimit (runSeq defaultSettings "alice" ActionType.write true
        emptyKV [0, 1, 2, 3, 4, 5, 6, 7, 8, 9]).2 59999 "alice" ActionType.write
        true defaultSettings).store 60000 "alice" ActionType.write true
      defaultSettings).result.allowed = true :=
  checkLimit_window_threshold defaultSettings "alice" ActionType.write true 10 0
    rfl (by decide) emptyKV rfl rfl rfl rfl [0, 1, 2, 3, 4, 5, 6, 7, 8, 9] rfl
    (by decide) 59999 (by decide) 60000 (by decide)

/-- C8: `checkMultiple` is exactly a sequence of independent `checkLimit`
calls, one per listed action in list order, with no atomicity across
actions: the final KV state is the sequential composition of the
per-action states, the record entry of an action is the `checkLimit`
result of its last occurrence evaluated against the state left by the
calls preceding it, and actions not in the list get no entry. -/
theorem checkMultiple_independent_calls (st : KVStore) (now : Nat)
    (userId : String) (isAuthenticated : Bool) (settings : RateLimitSettings)
    (acts p s : List ActionType) (a : ActionType)
    (hsplit : acts = p ++ a :: s) (hlast : a ∉ s) :
    (checkMultiple st now userId acts isAuthenticated settings).1 a =
      some (checkLimit (stateAfter now userId isAuthenticated settings st p)
        now userId a isAuthenticated settings).result ∧
    (checkMultiple st now userId acts isAuthenticated settings).2 =
      stateAfter now userId isAuthenticated settings st acts ∧
    ∀ x, x ∉ acts →
      (checkMultiple st now userId acts isAuthenticated settings).1 x = none := by
  subst hsplit
  refine ⟨?_, ?_, ?_⟩
  · exact checkMultipleGo_lookup_last now userId isAuthenticated settings p a s
      hlast _ st
  · exact checkMultipleGo_store now userId isAuthenticated settings _ _ st
  · intro x hx
    exact checkMultipleGo_lookup_notmem now userId isAuthenticated settings _ _ st
      x hx

theorem checkMultiple_independent_calls_witness :
    (checkMultiple emptyKV 5 "bob"
        [ActionType.read, ActionType.write, ActionType.read] true
        defaultSettings).1 ActionType.read =
      some (checkLimit (stateAfter 5 "bob" true defaultSettings emptyKV
          [ActionType.read, ActionType.write]) 5 "bob" ActionType.read true
        defaultSettings).result ∧
    (checkMultiple emptyKV 5 "bob"
        [ActionType.read, ActionType.write, ActionType.read] true
        defaultSettings).2 =
      stateAfter 5 "bob" true defaultSettings emptyKV
        [ActionType.read, ActionType.write, ActionType.read] ∧
    ∀ x, x ∉ [ActionType.read, ActionType.write, ActionType.read] →
      (checkMultiple emptyKV 5 "bob"
          [ActionType.read, ActionType.write, ActionType.read] true
          defaultSettings).1 x = none :=
  checkMultiple_independent_calls emptyKV 5 "bob" true defaultSettings
    [ActionType.read, ActionType.write, ActionType.read]
    [ActionType.read, ActionType.write] [] ActionType.read rfl (by decide)

/-- C6: soft-deleting an already-soft-deleted comment as an authorized
actor (author or admin) succeeds and changes no state: it answers with the
unchanged database. -/
theorem softDeleteComment_idempotent (db : DB) (commentId actorId : String)
    (now : Nat) (c : CommentRow)
    (hfind : db.comments.find? (fun x => x.id == commentId) = some c)
    (hperm : (actorId == c.author_id || isAdminUser db actorId) = true)
    (t : Nat) (hdel : c.deleted_at = some t) :
    softDeleteComment db commentId actorId now = Except.ok db := by
  simp [softDeleteComment, hfind, hperm, hdel]

theorem softDeleteComment_idempotent_witness :
    softDeleteComment
      ⟨[⟨"admin1", "root", true⟩],
        [⟨"d1", "hello", "u1", 1, 1, false, none⟩],
        [⟨"c1", "d1", none, "u1", "first", 2, 2, some 5⟩]⟩
      "c1" "u1" 9 =
      Except.ok
        ⟨[⟨"admin1", "root", true⟩],
          [⟨"d1", "hello", "u1", 1, 1, false, none⟩],
          [⟨"c1", "d1", none, "u1", "first", 2, 2, some 5⟩]⟩ :=
  softDeleteComment_idempotent _ "c1" "u1" 9
    ⟨"c1", "d1", none, "u1", "first", 2, 2, some 5⟩ rfl rfl 5 rfl

/-- C7: a successful `softDeleteDiscussion` leaves the comment and user
tables untouched and maps the discussion table through
`markDiscussionDeleted`, which alters no field other than `deleted_at` and
touches no other discussion; comment rows are hard-deleted exactly when
the discussion row itself is hard-deleted, by the schema's
`ON DELETE CASCADE` modelled in `hardDeleteDiscussion`. -/
theorem softDeleteDiscussion_frame (db : DB) (discussionId actorId : String)
    (now : Nat) (db' : DB)
    (h : softDeleteDiscussion db discussionId actorId now = Except.ok db') :
    db'.comments = db.comments ∧
    db'.users = db.users ∧
    db'.discussions = db.discussions.map (markDiscussionDeleted discussionId now) ∧
    (∀ d : DiscussionRow,
      (markDiscussionDeleted discussionId now d).id = d.id ∧
      (markDiscussionDeleted discussionId now d).title = d.title ∧
      (markDiscussionDeleted discussionId now d).created_by = d.created_by ∧
      (markDiscussionDeleted discussionId now d).created_at = d.created_at ∧
      (markDiscussionDeleted discussionId now d).updated_at = d.updated_at ∧
      (markDiscussionDeleted discussionId now d).is_archived = d.is_archived) ∧
    (∀ d : DiscussionRow, (d.id == discussionId) = false →
      markDiscussionDeleted discussionId now d = d) ∧
    (∀ c : CommentRow, c ∈ (hardDeleteDiscussion db discussionId).comments ↔
      c ∈ db.comments ∧ (c.discussion_id == discussionId) = false) := by
  have hdb : db' = { db with
      discussions := db.discussions.map (markDiscussionDeleted discussionId now) } := by
    by_cases hadm : isAdminUser db actorId
    · simp only [softDeleteDiscussion, hadm, if_true] at h
      cases hfind : db.discussions.find? (fun d => d.id == discussionId) with
      | none => rw [hfind] at h; cases h
      | some d0 =>
          rw [hfind] at h
          cases h
          rfl
    · simp only [softDeleteDiscussion, hadm, if_false] at h
      cases h
  subst hdb
  refine ⟨rfl, rfl, rfl, ?_, ?_, ?_⟩
  · intro d
    unfold markDiscussionDeleted
    by_cases hid : (d.id == discussionId) = true
    · simp [hid]
    · simp [hid]
  · intro d hid
    unfold markDiscussionDeleted
    simp [hid]
  · intro c
    simp [hardDeleteDiscussion, List.mem_filter]

theorem softDeleteDiscussion_frame_witness :
    (⟨[⟨"admin1", "root", true⟩],
      [⟨"d1", "hello", "u1", 1, 1, false, some 9⟩],
      [⟨"c1", "d1", none, "u1", "first", 2, 2, none⟩]⟩ : DB).comments =
      (⟨[⟨"admin1", "root", true⟩],
        [⟨"d1", "hello", "u1", 1, 1, false, none⟩],
        [⟨"c1", "d1", none, "u1", "first", 2, 2, none⟩]⟩ : DB).comments ∧
    (⟨[⟨"admin1", "root", true⟩],
      [⟨"d1", "hello", "u1", 1, 1, false, some 9⟩],
      [⟨"c1", "d1", none, "u1", "first", 2, 2, none⟩]⟩ : DB).users =
      (⟨[⟨"admin1", "root", true⟩],
        [⟨"d1", "hello", "u1", 1, 1, false, none⟩],
        [⟨"c1", "d1", none, "u1", "first", 2, 2, none⟩]⟩ : DB).users ∧
    (⟨[⟨"admin1", "root", true⟩],
      [⟨"d1", "hello", "u1", 1, 1, false, some 9⟩],
      [⟨"c1", "d1", none, "u1", "first", 2, 2, none⟩]⟩ : DB).discussions =
      (⟨[⟨"admin1", "root", true⟩],
        [⟨"d1", "hello", "u1", 1, 1, false, none⟩],
        [⟨"c1", "d1", none, "u1", "first", 2, 2, none⟩]⟩ : DB).discussions.map
        (markDiscussionDeleted "d1" 9) ∧
    (∀ d : DiscussionRow,
      (markDiscussionDeleted "d1" 9 d).id = d.id ∧
      (markDiscussionDeleted "d1" 9 d).title = d.title ∧
      (markDiscussionDeleted "d1" 9 d).created_by = d.created_by ∧
      (markDiscussionDeleted "d1" 9 d).created_at = d.created_at ∧
      (markDiscussionDeleted "d1" 9 d).updated_at = d.updated_at ∧
      (markDiscussionDeleted "d1" 9 d).is_archived = d.is_archived) ∧
    (∀ d : DiscussionRow, (d.id == "d1") = false →
      markDiscussionDeleted "d1" 9 d = d) ∧
    (∀ c : CommentRow, c ∈ (hardDeleteDiscussion
        ⟨[⟨"admin1", "root", true⟩],
          [⟨"d1", "hello", "u1", 1, 1, false, none⟩],
          [⟨"c1", "d1", none, "u1", "first", 2, 2, none⟩]⟩ "d1").comments ↔
      c ∈ (⟨[⟨"admin1", "root", true⟩],
          [⟨"d1", "hello", "u1", 1, 1, false, none⟩],
          [⟨"c1", "d1", none, "u1", "first", 2, 2, none⟩]⟩ : DB).comments ∧
        (c.discussion_id == "d1") = false) :=
  softDeleteDiscussion_frame
    ⟨[⟨"admin1", "root", true⟩],
      [⟨"d1", "hello", "u1", 1, 1, false, none⟩],
      [⟨"c1", "d1", none, "u1", "first", 2, 2, none⟩]⟩
    "d1" "admin1" 9
    ⟨[⟨"admin1", "root", true⟩],
      [⟨"d1", "hello", "u1", 1, 1, false, some 9⟩],
      [⟨"c1", "d1", none, "u1", "first", 2, 2, none⟩]⟩ rfl

end Icomment
